import Mathlib

/-!
Shallow embedding of `src/lambda/r53/update-records.js` (the Route 53 record
auto-linker Lambda) and proofs about it.

External effects (EC2/ELB describe calls, Route 53 zone lookup and record-set
changes, DynamoDB access) are modelled through an explicit environment `Env`
and a trace of `Call`s; the DynamoDB table is an explicit `Store` threaded
through the functions.  A JavaScript runtime error (a `TypeError` from reading
a property of `undefined`, or an SDK error from a describe call that finds
nothing) is modelled as the result `none`; a normal return is
`some (finalStore, callTrace)`.
-/

/-- A tag as it appears in CloudTrail event details: `{key, value}`. -/
structure Tag where
  key : String
  value : String
deriving DecidableEq

/-- One element of `requestParameters.tagSpecificationSet.items`; its `tags`
field may be absent (`undefined` in JS), hence the `Option`. -/
structure TagSpecItem where
  tags : Option (List Tag)
deriving DecidableEq

/-- The fields of an EC2 instance description that the Lambda reads
(`data.Reservations[0].Instances[0]`). -/
structure Instance where
  instanceId : String
  privateIpAddress : String
deriving DecidableEq

/-- The fields of a load-balancer description that the Lambda reads
(`data.LoadBalancers[0]`). -/
structure LoadBalancer where
  loadBalancerArn : String
  canonicalHostedZoneId : String
  dnsName : String
  type : String
deriving DecidableEq

/-- The `object` attribute persisted in the DynamoDB row: the resource
snapshot, either an instance or a load balancer. -/
inductive Snapshot where
  | ec2Snap (i : Instance)
  | elbSnap (lb : LoadBalancer)
deriving DecidableEq

/-- Reading the instance-specific properties off a stored snapshot
(`item.object.InstanceId`, `.PrivateIpAddress`); on a snapshot of the wrong
kind those properties are `undefined`, modelled as `none`. -/
def Snapshot.asInstance : Snapshot → Option Instance
  | ec2Snap i => some i
  | elbSnap _ => none

/-- Reading the balancer-specific properties off a stored snapshot; `none`
for a snapshot of the wrong kind. -/
def Snapshot.asLb : Snapshot → Option LoadBalancer
  | ec2Snap _ => none
  | elbSnap lb => some lb

/-- A row of the `Route53Records` DynamoDB table: `{id, aliasName, object}`. -/
structure AssocItem where
  id : String
  aliasName : String
  object : Snapshot
deriving DecidableEq

/-- The association store (the DynamoDB table), as a map from key to row. -/
def Store := String → Option AssocItem

namespace RecordTable

/-- `RecordTable.getItem`: point lookup by id. -/
def getItem (s : Store) (id : String) : Option AssocItem := s id

/-- `RecordTable.update`: `dynamodb.put` of the row `{id, aliasName, object}`,
overwriting any existing row for `id`. -/
def update (s : Store) (id aliasName : String) (object : Snapshot) : Store :=
  fun k => if k = id then some ⟨id, aliasName, object⟩ else s k

/-- `RecordTable.remove`: `dynamodb.delete` by key. -/
def remove (s : Store) (id : String) : Store :=
  fun k => if k = id then none else s k

end RecordTable

/-- `DEFAULT_TTL` from the source. -/
def DEFAULT_TTL : Nat := 300

/-- `TAG_KEY` from the source: the designated tag key. -/
def TAG_KEY : String := "bcs:route53:record"

/-- A resource record set inside a change: either a plain A record with a TTL
and a value (the EC2 case), or an alias-target record with a target hosted zone id,
target DNS name and the evaluate-target-health flag (the ELB case). -/
inductive RRSet where
  | a (ttl : Nat) (name : String) (value : String)
  | aliasT (name : String) (hostedZoneId : String) (dnsName : String)
      (evaluateTargetHealth : Bool)
deriving DecidableEq

/-- The `Name` field of a record set. -/
def RRSet.name : RRSet → String
  | a _ n _ => n
  | aliasT n _ _ _ => n

/-- One element of a `ChangeBatch`: an action ("UPSERT" or "DELETE") and a
record set. -/
structure Change where
  action : String
  rrset : RRSet
deriving DecidableEq

/-- An external call made by the Lambda, recorded in the trace. -/
inductive Call where
  | describeInstances (instanceId : String)
  | describeLoadBalancers (arn : String)
  | listHostedZonesByName (dnsName : String)
  | getItem (id : String)
  | putItem (id aliasName : String) (object : Snapshot)
  | deleteItem (id : String)
  | changeResourceRecordSets (zoneId : String) (changes : List Change)
deriving DecidableEq

/-- Whether a call is a record-set change submission. -/
def Call.isChange : Call → Bool
  | changeResourceRecordSets _ _ => true
  | _ => false

/-- Whether a call is an EC2 instance describe. -/
def Call.isDescribeInstances : Call → Bool
  | describeInstances _ => true
  | _ => false

/-- Whether a call is a load-balancer describe. -/
def Call.isDescribeLb : Call → Bool
  | describeLoadBalancers _ => true
  | _ => false

/-- Whether a call mutates the association store. -/
def Call.isStoreMutation : Call → Bool
  | putItem _ _ _ => true
  | deleteItem _ => true
  | _ => false

/-- The external world: what each inventory/zone lookup would answer.
`describeInstances` and `describeLoadBalancers` return `none` when the lookup
fails (SDK error / empty result, which crashes the Lambda);
`listHostedZonesByName` returns the list of zone ids in answer order. -/
structure Env where
  describeInstances : String → Option Instance
  describeLoadBalancers : String → Option LoadBalancer
  listHostedZonesByName : String → List String

/-- `getDomain`'s `url.indexOf(".")`: index of the first occurrence of `c`,
or `-1` when absent. -/
def indexOfChar (l : List Char) (c : Char) : Int :=
  match l with
  | [] => -1
  | x :: xs =>
    if x = c then 0
    else
      let r := indexOfChar xs c
      if r < 0 then -1 else r + 1

/-- `getDomain(url)`: `url.substring(url.indexOf(".") + 1)` — drop everything
up to and including the first dot (the whole string when there is no dot). -/
def getDomain (url : String) : String :=
  ⟨url.data.drop (indexOfChar url.data '.' + 1).toNat⟩

/-- `findEntry(tags)`: `tags ? tags.filter(tag => tag.key == TAG_KEY).pop() : null` —
the last tag whose key is the designated key, `none` when `tags` is absent or
no tag matches. -/
def findEntry (tags : Option (List Tag)) : Option Tag :=
  match tags with
  | none => none
  | some ts => (ts.filter (fun t => t.key == TAG_KEY)).getLast?

/-- `findKey(tags)`: `tags ? tags.filter(tag => tag == TAG_KEY).pop() : null` —
the last element equal to the designated key, `none` when `tags` is absent or
none matches. -/
def findKey (tags : Option (List String)) : Option String :=
  match tags with
  | none => none
  | some ts => (ts.filter (fun t => t == TAG_KEY)).getLast?

/-- `new HostedZone(dnsName); await zone.load(); zone.id`: list zones by name
and take the first answer's id; `none` when the answer list is empty (reading
`zone.Id` then throws). -/
def HostedZone.load (env : Env) (dnsName : String) : Option String :=
  (env.listHostedZonesByName dnsName).head?

/-- Zone resolution as the handlers perform it: look up by
`getDomain(aliasName)` and take the first zone id. -/
def resolveZone (env : Env) (aliasName : String) : Option String :=
  HostedZone.load env (getDomain aliasName)

/-- `Ec2Handler.updateRecords(zoneId, aliasName, upsert)` with `this.instance =
inst`: build the single-change batch (A record, `DEFAULT_TTL`, value the
private address), mutate the store (put on upsert, delete otherwise, keyed by
the instance's own id), then submit the change.  Returns the new store and
the calls in order. -/
def Ec2Handler.updateRecords (inst : Instance) (zoneId aliasName : String)
    (upsert : Bool) (s : Store) : Store × List Call :=
  let changeBatch : List Change :=
    [⟨if upsert then "UPSERT" else "DELETE",
      RRSet.a DEFAULT_TTL aliasName inst.privateIpAddress⟩]
  let s' : Store :=
    if upsert then RecordTable.update s inst.instanceId aliasName (Snapshot.ec2Snap inst)
    else RecordTable.remove s inst.instanceId
  let storeCall : Call :=
    if upsert then Call.putItem inst.instanceId aliasName (Snapshot.ec2Snap inst)
    else Call.deleteItem inst.instanceId
  (s', [storeCall, Call.changeResourceRecordSets zoneId changeBatch])

/-- `ElbHandler.updateRecords(zoneId, aliasName, upsert)` with `this.lb = lb`:
build the single-change batch (alias-target record at the balancer's canonical
hosted zone, DNS name prefixed with "dualstack." exactly when the balancer
type is "application", target health evaluated), mutate the store (keyed by
the balancer's own arn), then submit the change. -/
def ElbHandler.updateRecords (lb : LoadBalancer) (zoneId aliasName : String)
    (upsert : Bool) (s : Store) : Store × List Call :=
  let changeBatch : List Change :=
    [⟨if upsert then "UPSERT" else "DELETE",
      RRSet.aliasT aliasName lb.canonicalHostedZoneId
        ((if lb.type = "application" then "dualstack." else "") ++ lb.dnsName ++ ".")
        true⟩]
  let s' : Store :=
    if upsert then RecordTable.update s lb.loadBalancerArn aliasName (Snapshot.elbSnap lb)
    else RecordTable.remove s lb.loadBalancerArn
  let storeCall : Call :=
    if upsert then Call.putItem lb.loadBalancerArn aliasName (Snapshot.elbSnap lb)
    else Call.deleteItem lb.loadBalancerArn
  (s', [storeCall, Call.changeResourceRecordSets zoneId changeBatch])

/-- The fields of `event.detail` that the two processors read.  Fields whose
absence the source tolerates (checked for truthiness, directly or inside
`findEntry`/`findKey`) are `Option`; list fields indexed with `[0]` are plain
lists, where indexing an empty list yields `undefined` and the subsequent
property access crashes. -/
structure Detail where
  eventName : String
  tagSpecificationSet : Option (List TagSpecItem)
  responseInstanceIds : List String
  requestInstanceIds : List String
  tagSetItems : Option (List Tag)
  resourceIds : List String
  tags : Option (List Tag)
  loadBalancerArn : String
  responseLbArns : List String
  resourceArns : List String
  tagKeys : Option (List String)

/-- The inbound event: `{source, detail}`. -/
structure Event where
  source : String
  detail : Detail

/-- `processEc2(detail)`: the four recognized EC2 event names, mirroring the
source's `switch`.  `none` models a thrown error; `some (s, calls)` a normal
return with the final store and the external calls in order. -/
def processEc2 (env : Env) (d : Detail) (s : Store) : Option (Store × List Call) :=
  if d.eventName = "RunInstances" then
    match d.tagSpecificationSet with
    | none => some (s, [])
    | some items =>
      match items.head? with
      | none => none
      | some spec =>
        match findEntry spec.tags with
        | none => some (s, [])
        | some entry =>
          match d.responseInstanceIds.head? with
          | none => none
          | some instanceId =>
            match env.describeInstances instanceId with
            | none => none
            | some inst =>
              match resolveZone env entry.value with
              | none => none
              | some zoneId =>
                let r := Ec2Handler.updateRecords inst zoneId entry.value true s
                some (r.1, Call.describeInstances instanceId ::
                  Call.listHostedZonesByName (getDomain entry.value) :: r.2)
  else if d.eventName = "TerminateInstances" then
    match d.requestInstanceIds.head? with
    | none => none
    | some instanceId =>
      match RecordTable.getItem s instanceId with
      | none => some (s, [Call.getItem instanceId])
      | some item =>
        match resolveZone env item.aliasName with
        | none => none
        | some zoneId =>
          match item.object.asInstance with
          | none => none
          | some inst =>
            let r := Ec2Handler.updateRecords inst zoneId item.aliasName false s
            some (r.1, Call.getItem instanceId ::
              Call.listHostedZonesByName (getDomain item.aliasName) :: r.2)
  else if d.eventName = "CreateTags" ∨ d.eventName = "DeleteTags" then
    match findEntry d.tagSetItems with
    | none => some (s, [])
    | some entry =>
      match d.resourceIds.head? with
      | none => none
      | some instanceId =>
        match env.describeInstances instanceId with
        | none => none
        | some inst =>
          match resolveZone env entry.value with
          | none => none
          | some zoneId =>
            let r := Ec2Handler.updateRecords inst zoneId entry.value
              (d.eventName == "CreateTags") s
            some (r.1, Call.describeInstances instanceId ::
              Call.listHostedZonesByName (getDomain entry.value) :: r.2)
  else some (s, [])

/-- `processElb(detail)`: the four recognized ELB event names.  Note the
`RemoveTags` branch reads `item.alias` without a null check, so a missing
association row is a crash (`none`), unlike `DeleteLoadBalancer`. -/
def processElb (env : Env) (d : Detail) (s : Store) : Option (Store × List Call) :=
  if d.eventName = "CreateLoadBalancer" then
    match findEntry d.tags with
    | none => some (s, [])
    | some entry =>
      match d.responseLbArns.head? with
      | none => none
      | some lbArn =>
        match env.describeLoadBalancers lbArn with
        | none => none
        | some lb =>
          match resolveZone env entry.value with
          | none => none
          | some zoneId =>
            let r := ElbHandler.updateRecords lb zoneId entry.value true s
            some (r.1, Call.describeLoadBalancers lbArn ::
              Call.listHostedZonesByName (getDomain entry.value) :: r.2)
  else if d.eventName = "DeleteLoadBalancer" then
    match RecordTable.getItem s d.loadBalancerArn with
    | none => some (s, [Call.getItem d.loadBalancerArn])
    | some item =>
      match resolveZone env item.aliasName with
      | none => none
      | some zoneId =>
        match item.object.asLb with
        | none => none
        | some lb =>
          let r := ElbHandler.updateRecords lb zoneId item.aliasName false s
          some (r.1, Call.getItem d.loadBalancerArn ::
            Call.listHostedZonesByName (getDomain item.aliasName) :: r.2)
  else if d.eventName = "AddTags" then
    match findEntry d.tags with
    | none => some (s, [])
    | some entry =>
      match d.resourceArns.head? with
      | none => none
      | some lbArn =>
        match env.describeLoadBalancers lbArn with
        | none => none
        | some lb =>
          match resolveZone env entry.value with
          | none => none
          | some zoneId =>
            let r := ElbHandler.updateRecords lb zoneId entry.value true s
            some (r.1, Call.describeLoadBalancers lbArn ::
              Call.listHostedZonesByName (getDomain entry.value) :: r.2)
  else if d.eventName = "RemoveTags" then
    match findKey d.tagKeys with
    | none => some (s, [])
    | some _ =>
      match d.resourceArns.head? with
      | none => none
      | some lbArn =>
        match RecordTable.getItem s lbArn with
        | none => none
        | some item =>
          match resolveZone env item.aliasName with
          | none => none
          | some zoneId =>
            match item.object.asLb with
            | none => none
            | some lb =>
              let r := ElbHandler.updateRecords lb zoneId item.aliasName false s
              some (r.1, Call.getItem lbArn ::
                Call.listHostedZonesByName (getDomain item.aliasName) :: r.2)
  else some (s, [])

/-- `exports.handler`: dispatch on `event.source`; unrecognized sources fall
through the `switch` and return normally with no calls. -/
def handler (env : Env) (ev : Event) (s : Store) : Option (Store × List Call) :=
  if ev.source = "aws.ec2" then processEc2 env ev.detail s
  else if ev.source = "aws.elasticloadbalancing" then processElb env ev.detail s
  else some (s, [])

/-- Whether a `(source, eventName)` pair is one of the eight recognized
combinations handled by the dispatcher. -/
def recognizedPair (source eventName : String) : Bool :=
  (source == "aws.ec2" &&
    (eventName == "RunInstances" || eventName == "TerminateInstances" ||
     eventName == "CreateTags" || eventName == "DeleteTags")) ||
  (source == "aws.elasticloadbalancing" &&
    (eventName == "CreateLoadBalancer" || eventName == "DeleteLoadBalancer" ||
     eventName == "AddTags" || eventName == "RemoveTags"))

/-- The empty association store. -/
def emptyStore : Store := fun _ => none

/-- C8: for every resource id and every starting store state, the store upsert
for that id followed by the store removal for the same id leaves the store
with no entry for that id. -/
theorem store_upsert_then_remove_absent (s : Store) (id aliasName : String)
    (obj : Snapshot) :
    RecordTable.getItem
      (RecordTable.remove (RecordTable.update s id aliasName obj) id) id = none := by
  simp [RecordTable.getItem, RecordTable.remove]

/-- C3: in every invocation of `updateRecords` (EC2 and ELB alike) the call
trace is exactly the store mutation (put when `upsert`, delete otherwise)
followed by the record-set change submission, so the store mutation strictly
precedes the DNS change. -/
theorem store_mutation_precedes_change (inst : Instance) (lb : LoadBalancer)
    (zoneId aliasName : String) (upsert : Bool) (s : Store) :
    ((Ec2Handler.updateRecords inst zoneId aliasName upsert s).2 =
      [(if upsert then Call.putItem inst.instanceId aliasName (Snapshot.ec2Snap inst)
        else Call.deleteItem inst.instanceId),
       Call.changeResourceRecordSets zoneId
         [⟨if upsert then "UPSERT" else "DELETE",
           RRSet.a DEFAULT_TTL aliasName inst.privateIpAddress⟩]]) ∧
    ((ElbHandler.updateRecords lb zoneId aliasName upsert s).2 =
      [(if upsert then Call.putItem lb.loadBalancerArn aliasName (Snapshot.elbSnap lb)
        else Call.deleteItem lb.loadBalancerArn),
       Call.changeResourceRecordSets zoneId
         [⟨if upsert then "UPSERT" else "DELETE",
           RRSet.aliasT aliasName lb.canonicalHostedZoneId
             ((if lb.type = "application" then "dualstack." else "") ++ lb.dnsName ++ ".")
             true⟩]]) := by
  cases upsert <;> exact ⟨rfl, rfl⟩

/-- C6: every change built by the mutator has the documented shape: for a
compute resource an A record with TTL 300 whose value is the private address;
for a load balancer an alias record at the canonical hosted zone and DNS
name, "dualstack."-prefixed exactly when the balancer type is "application",
with target-health evaluation enabled; the action is "UPSERT" exactly when
the upsert flag is true and "DELETE" otherwise. -/
theorem change_shape (inst : Instance) (lb : LoadBalancer)
    (zoneId aliasName : String) (upsert : Bool) (s : Store) :
    DEFAULT_TTL = 300 ∧
    ((Ec2Handler.updateRecords inst zoneId aliasName upsert s).2.filter Call.isChange =
      [Call.changeResourceRecordSets zoneId
        [⟨if upsert then "UPSERT" else "DELETE",
          RRSet.a DEFAULT_TTL aliasName inst.privateIpAddress⟩]]) ∧
    ((ElbHandler.updateRecords lb zoneId aliasName upsert s).2.filter Call.isChange =
      [Call.changeResourceRecordSets zoneId
        [⟨if upsert then "UPSERT" else "DELETE",
          RRSet.aliasT aliasName lb.canonicalHostedZoneId
            ((if lb.type = "application" then "dualstack." else "") ++ lb.dnsName ++ ".")
            true⟩]]) := by
  refine ⟨rfl, ?_, ?_⟩ <;> cases upsert <;> rfl

/-- Unfolding equation of `indexOfChar` on a cons cell. -/
theorem indexOfChar_cons (x : Char) (xs : List Char) (c : Char) :
    indexOfChar (x :: xs) c =
      if x = c then 0
      else if indexOfChar xs c < 0 then -1 else indexOfChar xs c + 1 := rfl

/-- When `c` does not occur in `l`, the first occurrence of `c` in
`l ++ c :: r` sits exactly at position `l.length`. -/
theorem indexOfChar_append (l r : List Char) (c : Char) (h : c ∉ l) :
    indexOfChar (l ++ c :: r) c = (l.length : Int) := by
  induction l with
  | nil => simp [indexOfChar]
  | cons x xs ih =>
    simp only [List.mem_cons, not_or] at h
    rw [List.cons_append, indexOfChar_cons, if_neg (fun hx => h.1 hx.symm), ih h.2]
    have hnn : ¬((xs.length : Int) < 0) := by omega
    rw [if_neg hnn]
    simp only [List.length_cons]
    push_cast
    ring

/-- `getDomain` on an alias whose first label is `l` (dot-free) returns
everything after the first dot. -/
theorem getDomain_after_first_dot (l r : List Char) (h : '.' ∉ l) :
    getDomain ⟨l ++ '.' :: r⟩ = ⟨r⟩ := by
  unfold getDomain
  rw [show (String.mk (l ++ '.' :: r)).data = l ++ '.' :: r from rfl]
  rw [indexOfChar_append l r '.' h]
  rw [show ((l.length : Int) + 1).toNat = l.length + 1 from by omega]
  rw [show l ++ '.' :: r = (l ++ ['.']) ++ r from by simp]
  rw [show l.length + 1 = (l ++ ['.']).length from by simp]
  rw [List.drop_left]

/-- A concrete instance used by witnesses. -/
def inst1 : Instance := ⟨"i-0abc", "10.0.0.5"⟩

/-- A concrete load balancer used by witnesses. -/
def lb1 : LoadBalancer := ⟨"arn:lb-1", "Z35SXDOTRQ7X7K", "my-lb.elb.amazonaws.com", "application"⟩

/-- A concrete environment used by witnesses: one instance, one balancer,
one hosted zone for "example.com". -/
def cEnv : Env :=
  ⟨fun i => if i = "i-0abc" then some inst1 else none,
   fun a => if a = "arn:lb-1" then some lb1 else none,
   fun d => if d = "example.com" then ["Z123"] else []⟩

/-- A concrete event detail with every field inert, used by witnesses. -/
def blankDetail : Detail :=
  ⟨"SomeEvent", none, [], [], none, [], none, "", [], [], none⟩

/-- C9: zone resolution queries the zone directory with the alias minus its
leftmost DNS label (everything after the first dot) and returns the first
zone id of the directory's answer list. -/
theorem resolve_strips_first_label (env : Env) (l r : List Char) (h : '.' ∉ l) :
    getDomain ⟨l ++ '.' :: r⟩ = ⟨r⟩ ∧
    resolveZone env ⟨l ++ '.' :: r⟩ = (env.listHostedZonesByName ⟨r⟩).head? := by
  refine ⟨getDomain_after_first_dot l r h, ?_⟩
  unfold resolveZone HostedZone.load
  rw [getDomain_after_first_dot l r h]

/-- Witness for C9 at the alias "svc.example.com". -/
theorem resolve_strips_first_label_witness :
    ('.' ∉ "svc".data) ∧
    (getDomain ⟨"svc".data ++ '.' :: "example.com".data⟩ = ⟨"example.com".data⟩ ∧
     resolveZone cEnv ⟨"svc".data ++ '.' :: "example.com".data⟩ =
       (cEnv.listHostedZonesByName ⟨"example.com".data⟩).head?) :=
  ⟨by decide, resolve_strips_first_label cEnv "svc".data "example.com".data (by decide)⟩

/-- C7: for every event whose (source, eventName) pair is not one of the
eight recognized combinations, the handler makes no external calls (empty
trace, store untouched) and returns normally. -/
theorem unrecognized_event_noop (env : Env) (ev : Event) (s : Store)
    (h : recognizedPair ev.source ev.detail.eventName = false) :
    handler env ev s = some (s, []) := by
  unfold handler
  by_cases h1 : ev.source = "aws.ec2"
  · have ha : ev.detail.eventName ≠ "RunInstances" := by
      intro hx; rw [h1, hx] at h; exact absurd h (by decide)
    have hb : ev.detail.eventName ≠ "TerminateInstances" := by
      intro hx; rw [h1, hx] at h; exact absurd h (by decide)
    have hc : ev.detail.eventName ≠ "CreateTags" := by
      intro hx; rw [h1, hx] at h; exact absurd h (by decide)
    have hd : ev.detail.eventName ≠ "DeleteTags" := by
      intro hx; rw [h1, hx] at h; exact absurd h (by decide)
    rw [if_pos h1]
    unfold processEc2
    rw [if_neg ha, if_neg hb,
      if_neg (by rintro (h3 | h3); exacts [hc h3, hd h3])]
  · by_cases h2 : ev.source = "aws.elasticloadbalancing"
    · have ha : ev.detail.eventName ≠ "CreateLoadBalancer" := by
        intro hx; rw [h2, hx] at h; exact absurd h (by decide)
      have hb : ev.detail.eventName ≠ "DeleteLoadBalancer" := by
        intro hx; rw [h2, hx] at h; exact absurd h (by decide)
      have hc : ev.detail.eventName ≠ "AddTags" := by
        intro hx; rw [h2, hx] at h; exact absurd h (by decide)
      have hd : ev.detail.eventName ≠ "RemoveTags" := by
        intro hx; rw [h2, hx] at h; exact absurd h (by decide)
      rw [if_neg h1, if_pos h2]
      unfold processElb
      rw [if_neg ha, if_neg hb, if_neg hc, if_neg hd]
    · rw [if_neg h1, if_neg h2]

/-- Witness for C7 at a concrete unrecognized event. -/
theorem unrecognized_event_noop_witness :
    recognizedPair "custom.source" "SomeEvent" = false ∧
    handler cEnv ⟨"custom.source", blankDetail⟩ emptyStore = some (emptyStore, []) :=
  ⟨rfl, unrecognized_event_noop cEnv ⟨"custom.source", blankDetail⟩ emptyStore rfl⟩

/-- C2: for every instance-launch event carrying the designated tag with
value "svc.example.com", the handler succeeds, the store afterwards holds an
association keyed by the new instance id with alias "svc.example.com", and
exactly one record-set change request is submitted, with action "UPSERT" and
name "svc.example.com". -/
theorem launch_event_upserts (env : Env) (d : Detail) (s : Store)
    (specs : List TagSpecItem) (spec : TagSpecItem) (t : Tag)
    (iid zid : String) (inst : Instance)
    (h1 : d.eventName = "RunInstances")
    (h2 : d.tagSpecificationSet = some specs)
    (h2b : specs.head? = some spec)
    (h3 : findEntry spec.tags = some t)
    (h4 : t.value = "svc.example.com")
    (h5 : d.responseInstanceIds.head? = some iid)
    (h6 : env.describeInstances iid = some inst)
    (h7 : inst.instanceId = iid)
    (h8 : resolveZone env "svc.example.com" = some zid) :
    ∃ s' cs, handler env ⟨"aws.ec2", d⟩ s = some (s', cs) ∧
      RecordTable.getItem s' iid =
        some ⟨iid, "svc.example.com", Snapshot.ec2Snap inst⟩ ∧
      cs.filter Call.isChange = [Call.changeResourceRecordSets zid
        [⟨"UPSERT", RRSet.a DEFAULT_TTL "svc.example.com" inst.privateIpAddress⟩]] := by
  simp only [handler, processEc2, h1, h2, h2b, h3, h4, h5, h6, h8,
    reduceIte, Ec2Handler.updateRecords]
  refine ⟨_, _, rfl, ?_, ?_⟩
  · simp [RecordTable.getItem, RecordTable.update, h7]
  · simp [Call.isChange, List.filter]

/-- Concrete instance-launch event detail for the C2 witness. -/
def c2Detail : Detail :=
  { blankDetail with
    eventName := "RunInstances",
    tagSpecificationSet := some [⟨some [⟨TAG_KEY, "svc.example.com"⟩]⟩],
    responseInstanceIds := ["i-0abc"] }

/-- Witness for C2 at a concrete launch event in `cEnv`. -/
theorem launch_event_upserts_witness :
    (c2Detail.eventName = "RunInstances") ∧
    (c2Detail.tagSpecificationSet = some [⟨some [⟨TAG_KEY, "svc.example.com"⟩]⟩]) ∧
    (findEntry (some [⟨TAG_KEY, "svc.example.com"⟩]) =
      some ⟨TAG_KEY, "svc.example.com"⟩) ∧
    (cEnv.describeInstances "i-0abc" = some inst1) ∧
    (inst1.instanceId = "i-0abc") ∧
    (resolveZone cEnv "svc.example.com" = some "Z123") ∧
    (∃ s' cs, handler cEnv ⟨"aws.ec2", c2Detail⟩ emptyStore = some (s', cs) ∧
      RecordTable.getItem s' "i-0abc" =
        some ⟨"i-0abc", "svc.example.com", Snapshot.ec2Snap inst1⟩ ∧
      cs.filter Call.isChange = [Call.changeResourceRecordSets "Z123"
        [⟨"UPSERT", RRSet.a DEFAULT_TTL "svc.example.com" inst1.privateIpAddress⟩]]) :=
  ⟨rfl, rfl, by decide, by decide, rfl, by decide,
   launch_event_upserts cEnv c2Detail emptyStore
     [⟨some [⟨TAG_KEY, "svc.example.com"⟩]⟩] ⟨some [⟨TAG_KEY, "svc.example.com"⟩]⟩
     ⟨TAG_KEY, "svc.example.com"⟩ "i-0abc" "Z123" inst1
     rfl rfl rfl (by decide) rfl rfl (by decide) rfl (by decide)⟩

/-- C4: for every instance-termination event whose instance id has a prior
association aliased "svc.example.com" (holding the instance snapshot), the
handler succeeds, issues exactly one change request — a DELETE for that
alias built from the stored snapshot — performs no live instance describe
call, and removes the association row. -/
theorem terminate_event_deletes (env : Env) (d : Detail) (s : Store)
    (iid zid : String) (inst : Instance)
    (h1 : d.eventName = "TerminateInstances")
    (h2 : d.requestInstanceIds.head? = some iid)
    (h3 : s iid = some ⟨iid, "svc.example.com", Snapshot.ec2Snap inst⟩)
    (h4 : inst.instanceId = iid)
    (h5 : resolveZone env "svc.example.com" = some zid) :
    ∃ s' cs, handler env ⟨"aws.ec2", d⟩ s = some (s', cs) ∧
      cs.filter Call.isChange = [Call.changeResourceRecordSets zid
        [⟨"DELETE", RRSet.a DEFAULT_TTL "svc.example.com" inst.privateIpAddress⟩]] ∧
      cs.filter Call.isDescribeInstances = [] ∧
      RecordTable.getItem s' iid = none := by
  simp only [handler, processEc2, RecordTable.getItem, h1, h2, h3, h5,
    Snapshot.asInstance, reduceIte, Ec2Handler.updateRecords]
  refine ⟨_, _, rfl, ?_, ?_, ?_⟩
  · simp [Call.isChange, List.filter]
  · simp [Call.isDescribeInstances, List.filter]
  · simp [RecordTable.remove, h4]

/-- Concrete termination event detail for the C4 witness. -/
def c4Detail : Detail :=
  { blankDetail with
    eventName := "TerminateInstances",
    requestInstanceIds := ["i-0abc"] }

/-- Concrete store holding one association, for the C4 witness. -/
def c4Store : Store :=
  fun k => if k = "i-0abc"
    then some ⟨"i-0abc", "svc.example.com", Snapshot.ec2Snap inst1⟩ else none

/-- Witness for C4 at a concrete termination event in `cEnv`. -/
theorem terminate_event_deletes_witness :
    (c4Detail.eventName = "TerminateInstances") ∧
    (c4Store "i-0abc" = some ⟨"i-0abc", "svc.example.com", Snapshot.ec2Snap inst1⟩) ∧
    (inst1.instanceId = "i-0abc") ∧
    (resolveZone cEnv "svc.example.com" = some "Z123") ∧
    (∃ s' cs, handler cEnv ⟨"aws.ec2", c4Detail⟩ c4Store = some (s', cs) ∧
      cs.filter Call.isChange = [Call.changeResourceRecordSets "Z123"
        [⟨"DELETE", RRSet.a DEFAULT_TTL "svc.example.com" inst1.privateIpAddress⟩]] ∧
      cs.filter Call.isDescribeInstances = [] ∧
      RecordTable.getItem s' "i-0abc" = none) :=
  ⟨rfl, by decide, rfl, by decide,
   terminate_event_deletes cEnv c4Detail c4Store "i-0abc" "Z123" inst1
     rfl rfl (by decide) rfl (by decide)⟩

/-- When the designated key occurs in the removed-key list, `findKey` finds
it (the filtered list is nonempty and every element of it is the key). -/
theorem findKey_of_mem (ks : List String) (h : TAG_KEY ∈ ks) :
    findKey (some ks) = some TAG_KEY := by
  unfold findKey
  show (ks.filter (fun t => t == TAG_KEY)).getLast? = some TAG_KEY
  have hmem : TAG_KEY ∈ ks.filter (fun t => t == TAG_KEY) := by
    rw [List.mem_filter]
    exact ⟨h, by simp⟩
  rcases hx : (ks.filter (fun t => t == TAG_KEY)).getLast? with _ | x
  · rw [List.getLast?_eq_none_iff] at hx
    rw [hx] at hmem
    cases hmem
  · have hxmem : x ∈ ks.filter (fun t => t == TAG_KEY) := by
      obtain ⟨hne, hxe⟩ := List.mem_getLast?_eq_getLast (Option.mem_def.mpr hx)
      rw [hxe]
      exact List.getLast_mem hne
    rw [List.mem_filter] at hxmem
    have hxk : x = TAG_KEY := by simpa using hxmem.2
    rw [hxk]

/-- C5: for every load-balancer tag-removal event whose removed-key list
contains the designated key and whose arn has a prior association row, the
handler issues exactly one change request — a DELETE whose record name is the
alias stored in that row — makes no live balancer describe call, and its
behaviour is unchanged under any environment that answers zone lookups the
same but describes balancers (and their tags) arbitrarily. -/
theorem elb_tag_removal_deletes (env env2 : Env) (d : Detail) (s : Store)
    (ks : List String) (arn al zid : String) (lb : LoadBalancer)
    (h1 : d.eventName = "RemoveTags")
    (h2 : d.tagKeys = some ks)
    (h3 : TAG_KEY ∈ ks)
    (h4 : d.resourceArns.head? = some arn)
    (h5 : s arn = some ⟨arn, al, Snapshot.elbSnap lb⟩)
    (h6 : resolveZone env al = some zid)
    (h7 : env2.listHostedZonesByName = env.listHostedZonesByName) :
    ∃ s' cs, handler env ⟨"aws.elasticloadbalancing", d⟩ s = some (s', cs) ∧
      handler env2 ⟨"aws.elasticloadbalancing", d⟩ s =
        handler env ⟨"aws.elasticloadbalancing", d⟩ s ∧
      cs.filter Call.isChange = [Call.changeResourceRecordSets zid
        [⟨"DELETE", RRSet.aliasT al lb.canonicalHostedZoneId
          ((if lb.type = "application" then "dualstack." else "") ++ lb.dnsName ++ ".")
          true⟩]] ∧
      cs.filter Call.isDescribeLb = [] := by
  have h6' : resolveZone env2 al = some zid := by
    unfold resolveZone HostedZone.load
    rw [h7]
    exact h6
  simp only [handler, processElb, RecordTable.getItem, h1, h2, findKey_of_mem ks h3,
    h4, h5, h6, h6', Snapshot.asLb, reduceIte, ElbHandler.updateRecords]
  refine ⟨_, _, rfl, rfl, ?_, ?_⟩
  · simp [Call.isChange, List.filter]
  · simp [Call.isDescribeLb, List.filter]

/-- Concrete tag-removal event detail for the C5 witness. -/
def c5Detail : Detail :=
  { blankDetail with
    eventName := "RemoveTags",
    tagKeys := some ["other:key", TAG_KEY],
    resourceArns := ["arn:lb-1"] }

/-- Concrete store holding the balancer association, for the C5 witness. -/
def c5Store : Store :=
  fun k => if k = "arn:lb-1"
    then some ⟨"arn:lb-1", "svc.example.com", Snapshot.elbSnap lb1⟩ else none

/-- An environment answering zone lookups like `cEnv` but no describes at
all, for the C5 witness. -/
def cEnvNoDescribe : Env :=
  ⟨fun _ => none, fun _ => none, cEnv.listHostedZonesByName⟩

/-- Witness for C5 at a concrete tag-removal event in `cEnv`. -/
theorem elb_tag_removal_deletes_witness :
    (c5Detail.eventName = "RemoveTags") ∧
    (c5Detail.tagKeys = some ["other:key", TAG_KEY]) ∧
    (TAG_KEY ∈ ["other:key", TAG_KEY]) ∧
    (c5Store "arn:lb-1" = some ⟨"arn:lb-1", "svc.example.com", Snapshot.elbSnap lb1⟩) ∧
    (resolveZone cEnv "svc.example.com" = some "Z123") ∧
    (cEnvNoDescribe.listHostedZonesByName = cEnv.listHostedZonesByName) ∧
    (∃ s' cs, handler cEnv ⟨"aws.elasticloadbalancing", c5Detail⟩ c5Store = some (s', cs) ∧
      handler cEnvNoDescribe ⟨"aws.elasticloadbalancing", c5Detail⟩ c5Store =
        handler cEnv ⟨"aws.elasticloadbalancing", c5Detail⟩ c5Store ∧
      cs.filter Call.isChange = [Call.changeResourceRecordSets "Z123"
        [⟨"DELETE", RRSet.aliasT "svc.example.com" lb1.canonicalHostedZoneId
          ((if lb1.type = "application" then "dualstack." else "") ++ lb1.dnsName ++ ".")
          true⟩]] ∧
      cs.filter Call.isDescribeLb = []) :=
  ⟨rfl, rfl, by decide, by decide, by decide, rfl,
   elb_tag_removal_deletes cEnv cEnvNoDescribe c5Detail c5Store
     ["other:key", TAG_KEY] "arn:lb-1" "svc.example.com" "Z123" lb1
     rfl rfl (by decide) rfl (by decide) (by decide) rfl⟩

/-- Concrete tag-removal event whose balancer arn has no association row. -/
def c1Detail : Detail :=
  { blankDetail with
    eventName := "RemoveTags",
    tagKeys := some [TAG_KEY],
    resourceArns := ["arn:lb-1"] }

/-- C1: the load-balancer tag-removal branch reads `item.alias` without the
null check that `TerminateInstances` and `DeleteLoadBalancer` perform, so
with no association row for the arn the handler crashes (a `TypeError` in
the source, `none` here) instead of returning as a silent no-op. -/
theorem elb_tag_removal_missing_assoc_crashes :
    handler cEnv ⟨"aws.elasticloadbalancing", c1Detail⟩ emptyStore = none := rfl

/-- The per-event truncation that keeps only the first element of each
resource-bearing list of the event detail (launched/terminated instances,
tagged resources, balancer arns, tag specifications). -/
def truncateDetail (d : Detail) : Detail :=
  { d with
    tagSpecificationSet := d.tagSpecificationSet.map (fun items => items.take 1),
    responseInstanceIds := d.responseInstanceIds.take 1,
    requestInstanceIds := d.requestInstanceIds.take 1,
    resourceIds := d.resourceIds.take 1,
    responseLbArns := d.responseLbArns.take 1,
    resourceArns := d.resourceArns.take 1 }

/-- The head of a one-element truncation is the head of the list. -/
theorem head?_take_one {α : Type} (l : List α) : (l.take 1).head? = l.head? := by
  cases l <;> rfl

/-- C10: both processors read only the first element of each resource list:
processing an event is indistinguishable from processing the same event with
every resource list truncated to its first element, for every environment
and store. -/
theorem first_element_only (env : Env) (d : Detail) (s : Store) :
    processEc2 env (truncateDetail d) s = processEc2 env d s ∧
    processElb env (truncateDetail d) s = processElb env d s := by
  obtain ⟨en, tss, ri, qi, tsi, rid, tg, lba, rlb, ra, tk⟩ := d
  constructor
  · simp only [processEc2, truncateDetail]
    cases tss with
    | none => simp only [Option.map_none', head?_take_one]
    | some items => simp only [Option.map_some', head?_take_one]
  · simp only [processElb, truncateDetail, head?_take_one]
